import Mathlib

/-!
Verification of the dpxdt single-page capture script
(`src/dpxdt/client/capture.js`) against its natural-language specification.

The script drives a headless browser: it validates its arguments and config,
opens a target page, tracks every network resource in a per-URL status ledger,
polls the DOM for visual readiness, optionally injects CSS/JS, renders one
screenshot and exits.  Below, each event handler and pipeline stage of the
script is embedded as an executable Lean function over explicit state, and the
specification's claims are stated and proved about those functions.
-/

/-- The four resource states of the ledger (`ResourceStatus` in the script:
`done`, `error`, `timeout`, `pending`). -/
inductive ResourceStatus
  | DONE
  | ERROR
  | TIMEOUT
  | PENDING
deriving DecidableEq

/-- The script's `resourceStatusMap`: a JavaScript object mapping each URL to a
`ResourceStatus`.  Embedded as an association list; every mutation goes through
`ledgerSet`, which keeps keys unique just as object assignment does. -/
abbrev Ledger := List (String × ResourceStatus)

/-- Reading `resourceStatusMap[url]`: `none` means the URL has no entry. -/
def ledgerGet : Ledger → String → Option ResourceStatus
  | [], _ => none
  | (k, v) :: rest, u => if k = u then some v else ledgerGet rest u

/-- Writing `resourceStatusMap[url] = s`: overwrites an existing entry for the
key, otherwise appends a new one. -/
def ledgerSet : Ledger → String → ResourceStatus → Ledger
  | [], u, s => [(u, s)]
  | (k, v) :: rest, u, s =>
      if k = u then (k, s) :: rest else (k, v) :: ledgerSet rest u s

/-- The per-status totals computed by `page.waitForReady` (capture.js
lines 311-316): how many ledger entries currently carry status `s`. -/
def countStatus (l : Ledger) (s : ResourceStatus) : Nat :=
  (l.filter (fun p => p.2 = s)).length

/-- One `<img>` element as observed by `page.isDone`: its `complete` flag and
`naturalHeight`.  In the script both properties are additionally guarded by
`typeof` checks, which are vacuous in this typed embedding. -/
structure ImgElement where
  complete : Bool
  naturalHeight : Nat
deriving DecidableEq

/-- The DOM facts read by `page.isDone` inside `page.evaluate`:
`document.readyState`, the list of `<img>` elements, and the element counts for
class `lazy-load` and class `lazy-load is-unveiled`. -/
structure PageDom where
  readyState : String
  imgs : List ImgElement
  lazyLoadCount : Nat
  lazyLoadUnveiledCount : Nat
deriving DecidableEq

/-- `page.isDone` (capture.js lines 338-370): false if `readyState` is not
`"complete"`, false if any image is not (`complete` with non-zero
`naturalHeight`), false if the lazy-load count differs from the unveiled
count, true otherwise. -/
def isDone (dom : PageDom) : Bool :=
  if dom.readyState ≠ "complete" then
    false
  else if dom.imgs.any (fun img => !(img.complete && img.naturalHeight != 0)) then
    false
  else if dom.lazyLoadCount ≠ dom.lazyLoadUnveiledCount then
    false
  else
    true

/-- The page-readiness snapshot the pipeline acts on: `page.onLoadFinished`
polls `page.isDone` and, once it is true, `page.waitForReady` additionally
requires zero `PENDING` ledger entries before firing its continuation
(capture.js lines 310-336 and 372-382).  Readiness at an observation instant
is the conjunction of the two gates. -/
def pageReady (l : Ledger) (dom : PageDom) : Bool :=
  countStatus l ResourceStatus.PENDING = 0 && isDone dom

/-- Helper: `page.isDone` is true exactly when the three DOM sub-conditions
hold. -/
theorem isDone_iff (dom : PageDom) :
    isDone dom = true ↔
      (dom.readyState = "complete" ∧
       (∀ img ∈ dom.imgs, img.complete = true ∧ img.naturalHeight ≠ 0) ∧
       dom.lazyLoadCount = dom.lazyLoadUnveiledCount) := by
  unfold isDone
  by_cases hrs : dom.readyState = "complete" <;>
    by_cases hlazy : dom.lazyLoadCount = dom.lazyLoadUnveiledCount <;>
      simp [hrs, hlazy, List.any_eq_true]

/-- C1: Readiness is reported true if and only if all four sub-conditions hold
at the observation instant: the ledger has zero `PENDING` entries, the document
`readyState` is `"complete"`, every `<img>` has `complete = true` and
`naturalHeight ≠ 0`, and the `lazy-load` element count equals the
`lazy-load is-unveiled` element count.  Being an equivalence with a four-way
conjunction, flipping any single sub-condition to false makes overall
readiness false. -/
theorem readiness_iff_four_conditions (l : Ledger) (dom : PageDom) :
    pageReady l dom = true ↔
      (countStatus l ResourceStatus.PENDING = 0 ∧
       dom.readyState = "complete" ∧
       (∀ img ∈ dom.imgs, img.complete = true ∧ img.naturalHeight ≠ 0) ∧
       dom.lazyLoadCount = dom.lazyLoadUnveiledCount) := by
  unfold pageReady
  rw [Bool.and_eq_true, isDone_iff, decide_eq_true_eq]

/-- What `page.onResourceRequested` does with the outgoing network request:
either `networkRequest.abort()` is called, or the request proceeds, carrying
the `setHeader` calls that were applied to it (in order). -/
inductive NetAction
  | abort
  | proceed (headersSet : List (String × String))
deriving DecidableEq

/-- The pattern test used for both `resourcesToIgnore` and `injectHeaders`
keys: `bad == url || url.match(new RegExp(bad))`.  JavaScript regular
expression matching is not re-implemented here; it enters as the parameter
`rm`, so every theorem below holds for an arbitrary regex-match oracle. -/
def matchesEntry (rm : String → String → Bool) (pat url : String) : Bool :=
  pat = url || rm pat url

/-- The config fields consulted by the event handlers and injection stage,
after defaulting (capture.js reads them off the mutated global `config`). -/
structure CaptureConfig where
  targetUrl : String := ""
  resourcesToIgnore : List String := []
  injectHeaders : List (String × List (String × String)) := []
  injectCss : Option String := none
  injectJs : Option String := none
deriving DecidableEq

/-- The `setHeader` calls made for `url`: every `injectHeaders` entry whose
key matches (exactly or by regex) contributes its headers, in declaration
order, so later matching entries can overwrite earlier header values. -/
def collectHeaders (rm : String → String → Bool)
    (injectHeaders : List (String × List (String × String)))
    (url : String) : List (String × String) :=
  ((injectHeaders.filter (fun h => matchesEntry rm h.1 url)).map
    (fun h => h.2)).flatten

/-- The script's data-URI test `url.indexOf('data:') == 0`: the URL begins
with the five characters `data:`. -/
def isDataUri (u : String) : Bool := decide (u.data.take 5 = "data:".data)

/-- `page.onResourceRequested` (capture.js lines 129-162).  A `data:` URI skips
both the blocklist and the header-injection logic; otherwise the URL is tested
against every `resourcesToIgnore` entry and the request is aborted on a match
(returning before any ledger write); otherwise matching `injectHeaders` are
attached.  Every non-aborted request ends by resetting the ledger entry for
its URL to `PENDING`. -/
def onResourceRequested (rm : String → String → Bool) (cfg : CaptureConfig)
    (l : Ledger) (url : String) : Ledger × NetAction :=
  if isDataUri url then
    (ledgerSet l url ResourceStatus.PENDING, NetAction.proceed [])
  else if cfg.resourcesToIgnore.any (fun bad => matchesEntry rm bad url) then
    (l, NetAction.abort)
  else
    (ledgerSet l url ResourceStatus.PENDING,
     NetAction.proceed (collectHeaders rm cfg.injectHeaders url))

/-- `page.onResourceReceived` (capture.js lines 166-181): ignores every stage
except `"end"` (and redirect bookkeeping is log-only), then moves the entry to
`DONE` only when it is currently `PENDING`. -/
def onResourceReceived (l : Ledger) (url stage : String) : Ledger :=
  if stage ≠ "end" then
    l
  else if ledgerGet l url = some ResourceStatus.PENDING then
    ledgerSet l url ResourceStatus.DONE
  else
    l

/-- `page.onResourceTimeout` (capture.js lines 185-191): moves the entry to
`TIMEOUT` only when it is currently `PENDING`. -/
def onResourceTimeout (l : Ledger) (url : String) : Ledger :=
  if ledgerGet l url = some ResourceStatus.PENDING then
    ledgerSet l url ResourceStatus.TIMEOUT
  else
    l

/-- `page.onResourceError` (capture.js lines 195-203): moves the entry to
`ERROR` only when it is currently `PENDING`. -/
def onResourceError (l : Ledger) (url : String) : Ledger :=
  if ledgerGet l url = some ResourceStatus.PENDING then
    ledgerSet l url ResourceStatus.ERROR
  else
    l

theorem ledgerGet_ledgerSet (l : Ledger) (u : String) (s : ResourceStatus) :
    ledgerGet (ledgerSet l u s) u = some s := by
  induction l with
  | nil => simp [ledgerSet, ledgerGet]
  | cons p rest ih =>
      by_cases h : p.1 = u
      · simp [ledgerSet, ledgerGet, h]
      · simp [ledgerSet, ledgerGet, h, ih]

/-- The two continuations ever passed to `page.waitForReady`: `page.doInject`
(from the load-finished polling interval) and `page.doScreenshot` (from the
end of `page.doInject`). -/
inductive Continuation
  | inject
  | screenshot
deriving DecidableEq

/-- What one evaluation of `page.waitForReady` does: either invoke the
continuation now, or schedule itself again 500 ms later. -/
inductive WaitOutcome
  | fire (k : Continuation)
  | reschedule (k : Continuation)
deriving DecidableEq

/-- `page.waitForReady` (capture.js lines 310-336): tallies the ledger by
status; when no entry is `PENDING` the continuation runs immediately,
otherwise the check is rescheduled. -/
def waitForReady (l : Ledger) (k : Continuation) : WaitOutcome :=
  if countStatus l ResourceStatus.PENDING = 0 then
    WaitOutcome.fire k
  else
    WaitOutcome.reschedule k

theorem countStatus_ledgerSet_pending (l : Ledger) (u : String) :
    0 < countStatus (ledgerSet l u ResourceStatus.PENDING)
          ResourceStatus.PENDING := by
  induction l with
  | nil => simp [ledgerSet, countStatus]
  | cons p rest ih =>
      obtain ⟨k, v⟩ := p
      by_cases h : k = u
      · simp [ledgerSet, h, countStatus, List.filter]
      · by_cases h2 : v = ResourceStatus.PENDING
        · simp [ledgerSet, h, countStatus, List.filter, h2]
        · simpa [ledgerSet, h, countStatus, List.filter, h2] using ih

/-- C3: The ledger is a state machine: every non-aborted dispatch (re)sets the
URL's entry to `PENDING` (even from a terminal state); `DONE` is reached only
from `PENDING` on end-stage response completion; `TIMEOUT` and `ERROR` are
reached only from `PENDING` on their events; and an entry already in a
non-`PENDING` state is left untouched by any later response, timeout or error
event. -/
theorem ledger_state_machine :
    (∀ rm cfg l u, (onResourceRequested rm cfg l u).2 ≠ NetAction.abort →
        ledgerGet (onResourceRequested rm cfg l u).1 u
          = some ResourceStatus.PENDING) ∧
    (∀ l u, ledgerGet l u = some ResourceStatus.PENDING →
        ledgerGet (onResourceReceived l u "end") u = some ResourceStatus.DONE) ∧
    (∀ l u stage, ledgerGet l u ≠ some ResourceStatus.PENDING →
        onResourceReceived l u stage = l) ∧
    (∀ l u, ledgerGet l u = some ResourceStatus.PENDING →
        ledgerGet (onResourceTimeout l u) u = some ResourceStatus.TIMEOUT) ∧
    (∀ l u, ledgerGet l u ≠ some ResourceStatus.PENDING →
        onResourceTimeout l u = l) ∧
    (∀ l u, ledgerGet l u = some ResourceStatus.PENDING →
        ledgerGet (onResourceError l u) u = some ResourceStatus.ERROR) ∧
    (∀ l u, ledgerGet l u ≠ some ResourceStatus.PENDING →
        onResourceError l u = l) := by
  refine ⟨?_, ?_, ?_, ?_, ?_, ?_, ?_⟩
  · intro rm cfg l u h
    by_cases hd : isDataUri u
    · simp [onResourceRequested, hd, ledgerGet_ledgerSet]
    · by_cases hb : cfg.resourcesToIgnore.any (fun bad => matchesEntry rm bad u)
      · simp [onResourceRequested, hd, hb] at h
      · simp [onResourceRequested, hd, hb, ledgerGet_ledgerSet]
  · intro l u h
    simp [onResourceReceived, h, ledgerGet_ledgerSet]
  · intro l u stage h
    simp [onResourceReceived, h]
  · intro l u h
    simp [onResourceTimeout, h, ledgerGet_ledgerSet]
  · intro l u h
    simp [onResourceTimeout, h]
  · intro l u h
    simp [onResourceError, h, ledgerGet_ledgerSet]
  · intro l u h
    simp [onResourceError, h]

/-- Witness for C3: each transition exercised on a concrete one-entry ledger;
in particular a re-dispatch of a URL already `DONE` resets it to `PENDING`,
and a resolved entry survives later received/timeout/error events. -/
theorem ledger_state_machine_witness :
    ledgerGet (onResourceRequested (fun _ _ => false) {}
        [("a", ResourceStatus.DONE)] "a").1 "a" = some ResourceStatus.PENDING ∧
    ledgerGet (onResourceReceived [("a", ResourceStatus.PENDING)] "a" "end") "a"
        = some ResourceStatus.DONE ∧
    onResourceReceived [("a", ResourceStatus.DONE)] "a" "end"
        = [("a", ResourceStatus.DONE)] ∧
    ledgerGet (onResourceTimeout [("a", ResourceStatus.PENDING)] "a") "a"
        = some ResourceStatus.TIMEOUT ∧
    onResourceTimeout [("a", ResourceStatus.TIMEOUT)] "a"
        = [("a", ResourceStatus.TIMEOUT)] ∧
    ledgerGet (onResourceError [("a", ResourceStatus.PENDING)] "a") "a"
        = some ResourceStatus.ERROR ∧
    onResourceError [("a", ResourceStatus.ERROR)] "a"
        = [("a", ResourceStatus.ERROR)] :=
  ⟨ledger_state_machine.1 (fun _ _ => false) {} [("a", ResourceStatus.DONE)] "a"
      (by decide),
   ledger_state_machine.2.1 [("a", ResourceStatus.PENDING)] "a" (by decide),
   ledger_state_machine.2.2.1 [("a", ResourceStatus.DONE)] "a" "end" (by decide),
   ledger_state_machine.2.2.2.1 [("a", ResourceStatus.PENDING)] "a" (by decide),
   ledger_state_machine.2.2.2.2.1 [("a", ResourceStatus.TIMEOUT)] "a" (by decide),
   ledger_state_machine.2.2.2.2.2.1 [("a", ResourceStatus.PENDING)] "a" (by decide),
   ledger_state_machine.2.2.2.2.2.2 [("a", ResourceStatus.ERROR)] "a" (by decide)⟩

/-- C4: A non-data-URI request whose URL matches some `resourcesToIgnore`
entry (exactly or by regex) is aborted before proceeding, and the ledger is
left entirely unchanged — no entry is created for it, so a blocked URL's state
can never become `DONE` and readiness is decided from the remaining resources
only. -/
theorem blocked_resource_aborted (rm : String → String → Bool)
    (cfg : CaptureConfig) (l : Ledger) (u : String)
    (hdata : isDataUri u = false)
    (hmatch : cfg.resourcesToIgnore.any (fun bad => matchesEntry rm bad u)
        = true) :
    onResourceRequested rm cfg l u = (l, NetAction.abort) := by
  simp [onResourceRequested, hdata, hmatch]

/-- Witness for C4: the spec's own scenario — blocklist entry
`ads.example.test` matching `http://ads.example.test/x.js` exactly by regex
oracle, here realized with the URL itself as the exact-match entry. -/
theorem blocked_resource_aborted_witness :
    isDataUri "http://ads.example.test/x.js" = false ∧
    onResourceRequested (fun _ _ => false)
        { resourcesToIgnore := ["http://ads.example.test/x.js"] }
        [] "http://ads.example.test/x.js" = ([], NetAction.abort) :=
  ⟨by decide,
   blocked_resource_aborted (fun _ _ => false)
     { resourcesToIgnore := ["http://ads.example.test/x.js"] }
     [] "http://ads.example.test/x.js" (by decide) (by decide)⟩

/-- C8: `page.waitForReady` fires its continuation exactly when no ledger
entry is `PENDING`, regardless of how many entries sit in `TIMEOUT` or
`ERROR`: a failed resource counts as resolved and never blocks the capture. -/
theorem resolved_failures_never_block (l : Ledger) (k : Continuation)
    (h : countStatus l ResourceStatus.PENDING = 0) :
    waitForReady l k = WaitOutcome.fire k := by
  simp [waitForReady, h]

/-- Witness for C8: a ledger holding only a timed-out and an errored resource
has zero pending entries and fires the screenshot continuation. -/
theorem resolved_failures_never_block_witness :
    countStatus [("a", ResourceStatus.TIMEOUT), ("b", ResourceStatus.ERROR)]
        ResourceStatus.PENDING = 0 ∧
    waitForReady [("a", ResourceStatus.TIMEOUT), ("b", ResourceStatus.ERROR)]
        Continuation.screenshot = WaitOutcome.fire Continuation.screenshot :=
  ⟨by decide,
   resolved_failures_never_block
     [("a", ResourceStatus.TIMEOUT), ("b", ResourceStatus.ERROR)]
     Continuation.screenshot (by decide)⟩

/-- C10: A `data:` URI request bypasses both the blocklist check and the
header-injection logic — even when the URL matches a `resourcesToIgnore`
pattern it proceeds un-aborted and with no headers set — yet its URL is still
recorded `PENDING` in the ledger, so while unresolved it makes
`page.waitForReady` reschedule just like any other pending resource. -/
theorem data_uri_tracked_not_blocked (rm : String → String → Bool)
    (cfg : CaptureConfig) (l : Ledger) (u : String) (k : Continuation)
    (hdata : isDataUri u = true) :
    onResourceRequested rm cfg l u
        = (ledgerSet l u ResourceStatus.PENDING, NetAction.proceed []) ∧
    ledgerGet (onResourceRequested rm cfg l u).1 u
        = some ResourceStatus.PENDING ∧
    waitForReady (onResourceRequested rm cfg l u).1 k
        = WaitOutcome.reschedule k := by
  have h1 : onResourceRequested rm cfg l u
      = (ledgerSet l u ResourceStatus.PENDING, NetAction.proceed []) := by
    simp [onResourceRequested, hdata]
  refine ⟨h1, ?_, ?_⟩
  · rw [h1]
    exact ledgerGet_ledgerSet l u ResourceStatus.PENDING
  · rw [h1]
    unfold waitForReady
    rw [if_neg (countStatus_ledgerSet_pending l u).ne']

/-- Witness for C10: the data URI `data:x` is listed verbatim in
`resourcesToIgnore` and the regex oracle matches everything, yet the request
proceeds with no headers, is recorded `PENDING`, and blocks readiness. -/
theorem data_uri_tracked_not_blocked_witness :
    onResourceRequested (fun _ _ => true)
        { resourcesToIgnore := ["data:x"] } [] "data:x"
        = (ledgerSet [] "data:x" ResourceStatus.PENDING,
           NetAction.proceed []) ∧
    ledgerGet (onResourceRequested (fun _ _ => true)
        { resourcesToIgnore := ["data:x"] } [] "data:x").1 "data:x"
        = some ResourceStatus.PENDING ∧
    waitForReady (onResourceRequested (fun _ _ => true)
        { resourcesToIgnore := ["data:x"] } [] "data:x").1 Continuation.inject
        = WaitOutcome.reschedule Continuation.inject :=
  data_uri_tracked_not_blocked (fun _ _ => true)
    { resourcesToIgnore := ["data:x"] } [] "data:x" Continuation.inject
    (by decide)

/-- The immediate effect of a top-level handler or stage: terminate the
process with an exit code, hand a continuation to `page.waitForReady`, start
the one-second `page.isDone` polling interval, or do nothing beyond logging. -/
inductive StageAction
  | exitProcess (code : Nat)
  | waitThen (k : Continuation)
  | startPolling
  | noOp
deriving DecidableEq

/-- The first `page.onLoadFinished` assigned in the script (capture.js lines
243-251): on `"success"` it only logs; on any other status it calls
`phantom.exit(1)`.  This handler is dead code — the later assignment at lines
372-382 replaces it before any load can finish. -/
def onLoadFinishedShadowed (status : String) : StageAction :=
  if status = "success" then StageAction.noOp else StageAction.exitProcess 1

/-- The `page.onLoadFinished` in effect when the page is opened: the second
assignment (capture.js lines 372-382).  It ignores `status` entirely and
starts the one-second interval that polls `page.isDone` (whose success leads
to `page.waitForReady(page.doInject)`). -/
def onLoadFinished (_status : String) : StageAction :=
  StageAction.startPolling

/-- C2 evaluated at the failing input: when a page load finishes with the
non-success status `"fail"`, the effective handler starts the readiness
polling interval and does not exit with code 1 — while the shadowed first
handler (the script's dead code) would have exited 1 as the claim states. -/
theorem load_failure_not_fatal :
    onLoadFinished "fail" = StageAction.startPolling ∧
    onLoadFinished "fail" ≠ StageAction.exitProcess 1 ∧
    onLoadFinishedShadowed "fail" = StageAction.exitProcess 1 := by
  refine ⟨rfl, by decide, by decide⟩

/-- The hard-coded analytics blocklist `badResources` (capture.js lines
98-100). -/
def badResources : List String :=
  ["www.google-analytics.com"]

/-- The `resourcesToIgnore` defaulting logic (capture.js lines 102-108): when
the config supplies a list, every `badResources` entry is pushed onto it
(`forEach`/`push`, embedded as a left fold appending one element at a time);
when the field is absent, the list becomes exactly `badResources`. -/
def applyIgnoreDefaults (user : Option (List String)) : List String :=
  match user with
  | some l => badResources.foldl (fun acc bad => acc ++ [bad]) l
  | none => badResources

/-- The `resourceTimeoutMs` defaulting `config.resourceTimeoutMs || 10000`
(capture.js line 94): absent — or the JavaScript-falsy value 0 — falls back to
10000. -/
def effectiveResourceTimeout (user : Option Nat) : Nat :=
  match user with
  | some t => if t = 0 then 10000 else t
  | none => 10000

/-- Counterexample for C5: with the user-supplied blocklist `["x"]`, the
effective blocklist is not the user-supplied set — the analytics default is
merged in. -/
theorem blocklist_default_counterexample :
    applyIgnoreDefaults (some ["x"]) ≠ ["x"] := by
  decide

/-- C5 (amended): when `resourcesToIgnore` is supplied, the effective
blocklist is the user list with the analytics defaults appended (a merge, not
a replacement); when absent it is exactly the analytics default set; the
`resourceTimeoutMs` fallback applies exactly once, when the field is absent
or zero. -/
theorem blocklist_and_timeout_defaults :
    (∀ user : List String,
        applyIgnoreDefaults (some user) = user ++ badResources) ∧
    applyIgnoreDefaults none = badResources ∧
    (∀ t : Nat, t ≠ 0 → effectiveResourceTimeout (some t) = t) ∧
    effectiveResourceTimeout none = 10000 := by
  refine ⟨?_, rfl, ?_, rfl⟩
  · intro user
    simp [applyIgnoreDefaults, badResources]
  · intro t ht
    simp [effectiveResourceTimeout, ht]

/-- Witness for C5 (amended): concrete defaulting on `["x"]`, absence, and a
non-zero timeout. -/
theorem blocklist_and_timeout_defaults_witness :
    applyIgnoreDefaults (some ["x"]) = ["x"] ++ badResources ∧
    applyIgnoreDefaults none = badResources ∧
    effectiveResourceTimeout (some 7) = 7 ∧
    effectiveResourceTimeout none = 10000 :=
  ⟨blocklist_and_timeout_defaults.1 ["x"],
   blocklist_and_timeout_defaults.2.1,
   blocklist_and_timeout_defaults.2.2.1 7 (by decide),
   blocklist_and_timeout_defaults.2.2.2⟩

/-- The raw parse of the config file, before validation: `targetUrl` may be
missing (`none`).  Only `targetUrl` is consulted by the validation step. -/
structure RawConfig where
  targetUrl : Option String := none
deriving DecidableEq

/-- The outcome of the script's argument/config validation prologue: either
`phantom.exit` with a code before any page work, or proceed to configure and
open the page at the validated target URL. -/
inductive StartupResult
  | exit (code : Nat)
  | proceed (targetUrl : String)
deriving DecidableEq

/-- The validation prologue (capture.js lines 33-56): `system.args` must have
length exactly 3 (script name plus the two positional arguments), the config
file at `args[1]` must parse, and the parsed config must have a JavaScript-
truthy `targetUrl` (present and non-empty); each failure calls
`phantom.exit(1)`.  File reading and JSON parsing are external effects,
entering as the oracle `parse`. -/
def startup (args : List String) (parse : String → Option RawConfig) :
    StartupResult :=
  if args.length = 3 then
    match parse (args.getD 1 "") with
    | none => StartupResult.exit 1
    | some cfg =>
        match cfg.targetUrl with
        | none => StartupResult.exit 1
        | some t => if t = "" then StartupResult.exit 1 else StartupResult.proceed t
  else
    StartupResult.exit 1

/-- `page.open` is reached only on a `proceed` outcome (capture.js lines
384-389 run after the validation prologue, and `phantom.exit` terminates the
script): the URL the process will navigate to, if any. -/
def navigationTarget : StartupResult → Option String
  | StartupResult.exit _ => none
  | StartupResult.proceed t => some t

/-- C6: With an argument count other than exactly two positional arguments, or
an unparsable config file, or a parsed config whose `targetUrl` is missing or
empty, the process exits with code 1 and never navigates — so no network
activity happens and no output file is written. -/
theorem invalid_invocation_exits_before_network
    (args : List String) (parse : String → Option RawConfig)
    (h : args.length ≠ 3 ∨ parse (args.getD 1 "") = none ∨
        (∃ cfg, parse (args.getD 1 "") = some cfg ∧
          (cfg.targetUrl = none ∨ cfg.targetUrl = some ""))) :
    startup args parse = StartupResult.exit 1 ∧
    navigationTarget (startup args parse) = none := by
  have hexit : startup args parse = StartupResult.exit 1 := by
    unfold startup
    by_cases hlen : args.length = 3
    · rw [if_pos hlen]
      rcases h with h | h | ⟨cfg, hcfg, hurl⟩
      · exact absurd hlen h
      · rw [h]
      · rw [hcfg]
        rcases hurl with hurl | hurl <;> simp [hurl]
    · rw [if_neg hlen]
  exact ⟨hexit, by rw [hexit]; rfl⟩

/-- Witness for C6: a bare invocation with no positional arguments exits 1
without navigating. -/
theorem invalid_invocation_exits_before_network_witness :
    startup ["capture.js"] (fun _ => none) = StartupResult.exit 1 ∧
    navigationTarget (startup ["capture.js"] (fun _ => none)) = none :=
  invalid_invocation_exits_before_network ["capture.js"] (fun _ => none)
    (Or.inl (by decide))

/-- `page.doInject` (capture.js lines 270-306): optional CSS injection has no
observable failure mode; if `injectJs` is set it is evaluated in the page
(`window.eval` wrapped in try/catch — whether it throws is the external
outcome `jsThrows`), and a thrown exception means `phantom.exit(1)`;
otherwise the stage ends by handing `page.doScreenshot` to
`page.waitForReady`. -/
def doInject (cfg : CaptureConfig) (jsThrows : Bool) : StageAction :=
  match cfg.injectJs with
  | some _ => if jsThrows then StageAction.exitProcess 1
              else StageAction.waitThen Continuation.screenshot
  | none => StageAction.waitThen Continuation.screenshot

/-- C7: When `injectJs` is set, a throwing evaluation terminates the process
with exit code 1 — never reaching the screenshot stage — while a non-throwing
evaluation hands the capture continuation to a second readiness wait. -/
theorem inject_js_failure_fatal (cfg : CaptureConfig) (s : String)
    (h : cfg.injectJs = some s) :
    doInject cfg true = StageAction.exitProcess 1 ∧
    doInject cfg false = StageAction.waitThen Continuation.screenshot := by
  simp [doInject, h]

/-- Witness for C7: a config whose injected script is `throw new Error(0)`
exits 1 when evaluation throws and proceeds to capture when it does not. -/
theorem inject_js_failure_fatal_witness :
    doInject { injectJs := some "throw new Error(0)" } true
        = StageAction.exitProcess 1 ∧
    doInject { injectJs := some "throw new Error(0)" } false
        = StageAction.waitThen Continuation.screenshot :=
  inject_js_failure_fatal { injectJs := some "throw new Error(0)" }
    "throw new Error(0)" rfl

/-- The observable effects of `page.doScreenshot`: the paths passed to
`page.render`, in order, and the exit code passed to `phantom.exit`. -/
structure ScreenshotResult where
  renderedTo : List String
  exitCode : Nat
deriving DecidableEq

/-- `page.doScreenshot` (capture.js lines 254-266): injects the fixed
`inject.js` asset, calls `page.render(outputPath)` once, and then calls
`phantom.exit(0)`.  The render call reports no outcome the script looks at;
whether the platform actually wrote the file enters as `renderSucceeds` and is
visibly ignored. -/
def doScreenshot (outputPath : String) (_renderSucceeds : Bool) :
    ScreenshotResult :=
  { renderedTo := [outputPath], exitCode := 0 }

/-- C9: Once the capture stage runs, it renders exactly one screenshot to the
output path and exits 0 unconditionally — the result is identical whether the
platform-level render succeeded or failed, so a rendering failure is not
distinguished from success. -/
theorem capture_exits_zero_unconditionally (outputPath : String) :
    (∀ renderSucceeds : Bool,
        doScreenshot outputPath renderSucceeds
          = { renderedTo := [outputPath], exitCode := 0 }) ∧
    doScreenshot outputPath true = doScreenshot outputPath false := by
  exact ⟨fun _ => rfl, rfl⟩
